import Mathlib

/-!
Shallow embedding of the GPS position-solving orchestrator
(`PosSolverImpl` in `src/gps/PosSolver.cpp`).

Doubles are modelled as exact rationals (`ℚ`); the 48-bit hardware tick
counter arrives through a `uint64_t` parameter, modelled as a natural
number reduced modulo `2^64`.  The single-point solver (`_spp`) and the
drift filter (`_ekf`) are external components: the orchestrator only
consumes the values it reads back from them after each call, so each
epoch carries those read-back values as oracle inputs (`SppResult`,
`EkfResult`).  The GPS-week normalisation `_spp.mod_gpsweek` is likewise
an external function and is passed in as an oracle.
-/

namespace PosSolver

/-- Geodetic coordinates as returned by the external solvers
(`LonLatAlt` in the C++ source); only the altitude is inspected by the
orchestrator. -/
structure LonLatAlt where
  lon : ℚ
  lat : ℚ
  alt : ℚ
  deriving DecidableEq, Repr

/-- A Cartesian 3-vector (`vec_type` of dimension 3 in the source). -/
structure Vec3 where
  x : ℚ
  y : ℚ
  z : ℚ
  deriving DecidableEq, Repr

/-- Construction configuration of `PosSolverImpl`: the UERE ranging-error
constant, the nominal oscillator frequency `_fOsc`, and the speed-of-light
constants exposed by the two external solvers (`_spp.c()` and
`_ekf.c()`). -/
structure Config where
  uere : ℚ
  fOsc : ℚ
  cSpp : ℚ
  cEkf : ℚ
  deriving DecidableEq, Repr

/-- Values the orchestrator reads back from the single-point solver after
one call to `_spp.Solve`: the boolean return `status`, `_spp.LLH()`,
`_spp.ct_rx()` and `_spp.pos()`. -/
structure SppResult where
  status : Bool
  llh : LonLatAlt
  ct_rx : ℚ
  pos : Vec3
  deriving DecidableEq, Repr

/-- Values the orchestrator reads back from the drift filter when it
invokes `_ekf.update`: the boolean return `ok`, `_ekf.LLH()`,
`_ekf.ct_rx()` and `_ekf.state(4)`. -/
structure EkfResult where
  ok : Bool
  llh : LonLatAlt
  ct_rx : ℚ
  state4 : ℚ
  deriving DecidableEq, Repr

/-- The mutable state of `PosSolverImpl`.  Two-slot histories
(`std::array<_,2>` in the source) are pairs whose first component is
slot `[0]` (current) and whose second component is slot `[1]`
(previous). -/
structure PosState where
  pos : Vec3
  t_rx : ℚ
  osc_corr : ℚ
  llh : LonLatAlt
  pos_valid : Bool
  state_spp : Bool × Bool
  ticks_spp : ℕ × ℕ
  ticks_ekf : ℕ × ℕ
  ct_rx : ℚ × ℚ
  ekf_running : ℤ
  deriving DecidableEq, Repr

/-- The state installed by the `PosSolverImpl` constructor. -/
def initState : PosState :=
  { pos := ⟨0, 0, 0⟩
  , t_rx := 0
  , osc_corr := -1
  , llh := ⟨0, 0, 0⟩
  , pos_valid := false
  , state_spp := (false, false)
  , ticks_spp := (0, 0)
  , ticks_ekf := (0, 0)
  , ct_rx := (0, 0)
  , ekf_running := -1 }

/-- Accessor `pos_valid()`. -/
def pos_valid (st : PosState) : Bool := st.pos_valid

/-- Accessor `spp_valid()`: slot `[0]` of `_state_spp`. -/
def spp_valid (st : PosState) : Bool := st.state_spp.1

/-- Accessor `ekf_valid()`: `_ekf_running >= 1`. -/
def ekf_valid (st : PosState) : Bool := st.ekf_running ≥ 1

/-- Tick difference `dadc_ticks_sec`: 48-bit-wraparound-corrected
subtraction of the two slots of a tick history, carried out in
`uint64_t` arithmetic (modulo `2^64`), divided by the nominal oscillator
frequency.  `adc_ticks.1` is slot `[0]` (newest), `adc_ticks.2` is slot
`[1]` (previous); both are maintained below `2^64`. -/
def dadc_ticks_sec (fOsc : ℚ) (adc_ticks : ℕ × ℕ) : ℚ :=
  ((((adc_ticks.1 + (if adc_ticks.1 < adc_ticks.2 then 1 else 0) * 2 ^ 48) % 2 ^ 64
      + 2 ^ 64 - adc_ticks.2) % 2 ^ 64 : ℕ) : ℚ) / fOsc

/-- Result of one `solve` call: the boolean return value, the successor
state, the normalised weights handed to the external solvers, and — when
`_ekf.update` was invoked — the elapsed-seconds argument it received. -/
structure SolveOutcome where
  ret : Bool
  st : PosState
  normWeight : List ℚ
  updateDt : Option ℚ
  deriving DecidableEq, Repr

/-- Lines 48-70 of `PosSolverImpl::solve`: shift the tick histories
(`_ticks_spp[1] = _ticks_spp[0]; _ticks_ekf[0] = _ticks_spp[0] =
adc_ticks`), run the point solve, apply the altitude plausibility gate
(`_state_spp[0] = (status && altitude > -100 && altitude < 9000)`),
shift the clock-bias history, and on a valid point-solution export
`_llh`, `_t_rx`, `_pos` and set the sticky `_pos_valid`. -/
def sppUpdate (cfg : Config) (st : PosState) (adc_ticks : ℕ)
    (spp : SppResult) : PosState :=
  let tick : ℕ := adc_ticks % 2 ^ 64
  let ticks_spp : ℕ × ℕ := (tick, st.ticks_spp.1)
  let ticks_ekf : ℕ × ℕ := (tick, st.ticks_ekf.2)
  let altitude : ℚ := spp.llh.alt
  let state_spp : Bool × Bool :=
    (spp.status && decide (altitude > -100) && decide (altitude < 9000),
      st.state_spp.1)
  let ct_rx : ℚ × ℚ := (spp.ct_rx, st.ct_rx.1)
  if state_spp.1 then
    { st with
        llh := spp.llh
      , t_rx := spp.ct_rx / cfg.cSpp
      , pos := spp.pos
      , pos_valid := true
      , state_spp := state_spp
      , ticks_spp := ticks_spp
      , ticks_ekf := ticks_ekf
      , ct_rx := ct_rx }
  else
    { st with
        state_spp := state_spp
      , ticks_spp := ticks_spp
      , ticks_ekf := ticks_ekf
      , ct_rx := ct_rx }

/-- Lines 72-90 of `PosSolverImpl::solve`: when the last two
point-solutions are valid, compute `_osc_corr` from the differenced
clock-bias history, and if the filter is not running, bootstrap it
(`_ekf.Reset`, an external effect; `_ticks_ekf[1] = _ticks_ekf[0];
_ekf_running = 0`). -/
def oscBootstrap (cfg : Config) (modGpsweek : ℚ → ℚ) (st1 : PosState) :
    PosState :=
  if st1.state_spp.1 && st1.state_spp.2 then
    let dt_adc_sec : ℚ := dadc_ticks_sec cfg.fOsc st1.ticks_spp
    let osc_corr : ℚ :=
      modGpsweek (st1.ct_rx.1 - st1.ct_rx.2) / cfg.cSpp / dt_adc_sec
    let stA : PosState := { st1 with osc_corr := osc_corr }
    if stA.ekf_running = -1 then
      { stA with
          ticks_ekf := (stA.ticks_ekf.1, stA.ticks_ekf.1)
        , ekf_running := 0 }
    else stA
  else st1

/-- Lines 92-104 of `PosSolverImpl::solve`: when the filter is running,
invoke `_ekf.update` with the elapsed seconds from the filter tick
history (returned here alongside the state).  On success, shift the
filter tick history, bump `_ekf_running` capped at 4, export the
filter's geodetic fix, receiver time and oscillator correction, and
copy the point solver's position; on failure set `_ekf_running = -1`. -/
def ekfStep (cfg : Config) (spp : SppResult) (ekf : EkfResult)
    (st2 : PosState) : PosState × Option ℚ :=
  if st2.ekf_running ≥ 0 then
    let dt_adc_sec : ℚ := dadc_ticks_sec cfg.fOsc st2.ticks_ekf
    if ekf.ok then
      ({ st2 with
           ticks_ekf := (st2.ticks_ekf.1, st2.ticks_ekf.1)
         , ekf_running :=
             st2.ekf_running + (if st2.ekf_running < 4 then 1 else 0)
         , llh := ekf.llh
         , t_rx := ekf.ct_rx / cfg.cEkf
         , osc_corr := ekf.state4 / cfg.cEkf
         , pos := spp.pos }, some dt_adc_sec)
    else
      ({ st2 with ekf_running := -1 }, some dt_adc_sec)
  else
    (st2, none)

/-- One epoch of `PosSolverImpl::solve`.  `nsv` is `sv.dim2()`, `weight`
the weight vector, `adc_ticks` the `uint64_t` tick value, `spp` and `ekf`
the oracle read-backs from the two external solvers for this epoch, and
`modGpsweek` the external GPS-week normalisation `_spp.mod_gpsweek`.
Returns false immediately on an empty batch; otherwise normalises the
weights (`weight /= (TNT::mean(weight) * _uere*_uere)`), then runs the
three phases above in order and returns true. -/
def solve (cfg : Config) (st : PosState) (nsv : ℕ) (weight : List ℚ)
    (adc_ticks : ℕ) (spp : SppResult) (modGpsweek : ℚ → ℚ)
    (ekf : EkfResult) : SolveOutcome :=
  if nsv = 0 then
    ⟨false, st, weight, none⟩
  else
    let wmean : ℚ := (weight.sum) / (weight.length : ℚ)
    let w : List ℚ := weight.map (fun x => x / (wmean * cfg.uere * cfg.uere))
    let res : PosState × Option ℚ :=
      ekfStep cfg spp ekf (oscBootstrap cfg modGpsweek (sppUpdate cfg st adc_ticks spp))
    ⟨true, res.1, w, res.2⟩

/-- Value of the C `double` constant `M_PI` as an exact rational. -/
def M_PI : ℚ := 884279719003555 / 281474976710656

/-- The body of `PosSolverImpl::elev_azim`.  The external iterators
`_spp.IterElevAzim` / `_ekf.IterElevAzim` are modelled from the spec:
for each satellite column, in input order, the trusted solver produces a
pair of radian look angles, here supplied by the oracles `sppEA` /
`ekfEA`; the callback converts them to degrees. -/
def elev_azim (st : PosState) (n : ℕ) (sppEA ekfEA : ℕ → ℚ × ℚ) :
    List (ℚ × ℚ) :=
  if ¬ spp_valid st ∧ ¬ ekf_valid st then
    []
  else
    let f : ℕ → ℚ × ℚ := if ekf_valid st then ekfEA else sppEA
    (List.range n).map (fun i => ((f i).1 / M_PI * 180, (f i).2 / M_PI * 180))

/-! Concrete example inputs used to exercise the model. -/

/-- An example configuration: UERE 1, oscillator 10 Hz, speed-of-light
constants 3 (kept small to keep evaluation cheap). -/
def exCfg : Config := ⟨1, 10, 3, 3⟩

/-- The identity GPS-week normalisation oracle. -/
def idQ : ℚ → ℚ := fun x => x

/-- A point-solve read-back that passes the plausibility gate. -/
def sppOk : SppResult := ⟨true, ⟨1, 2, 100⟩, 30, ⟨7, 8, 9⟩⟩

/-- A point-solve read-back whose solve failed. -/
def sppBad : SppResult := ⟨false, ⟨1, 2, 100⟩, 30, ⟨7, 8, 9⟩⟩

/-- A filter read-back for a successful update. -/
def ekfOk : EkfResult := ⟨true, ⟨4, 5, 200⟩, 60, 15⟩

/-- A filter read-back for a failed update. -/
def ekfBad : EkfResult := ⟨false, ⟨4, 5, 200⟩, 60, 15⟩

/-- First epoch of a fresh run whose point-solution passes the gate. -/
def ex1 : SolveOutcome :=
  solve exCfg initState 4 [1, 1, 1, 1] 5 sppOk idQ ekfOk

/-- Second consecutive gate-passing epoch after `ex1`, with a successful
filter update. -/
def ex2 : SolveOutcome :=
  solve exCfg ex1.st 4 [1, 1, 1, 1] 9 sppOk idQ ekfOk

/-- First epoch of a fresh run whose point-solve failed. -/
def qx1 : SolveOutcome :=
  solve exCfg initState 4 [1, 1, 1, 1] 5 sppBad idQ ekfOk

/-- Second epoch after `qx1`, again with a failed point-solve. -/
def qx2 : SolveOutcome :=
  solve exCfg qx1.st 4 [1, 1, 1, 1] 9 sppBad idQ ekfOk

/-! Theorems.  First, field-tracking lemmas for the three phases of
`solve`. -/

theorem solve_st_of_ne (cfg : Config) (st : PosState) (nsv : ℕ)
    (weight : List ℚ) (adc_ticks : ℕ) (spp : SppResult)
    (modGpsweek : ℚ → ℚ) (ekf : EkfResult) (h : nsv ≠ 0) :
    (solve cfg st nsv weight adc_ticks spp modGpsweek ekf).st =
      (ekfStep cfg spp ekf
        (oscBootstrap cfg modGpsweek (sppUpdate cfg st adc_ticks spp))).1 := by
  unfold solve
  simp [h]

theorem solve_updateDt_of_ne (cfg : Config) (st : PosState) (nsv : ℕ)
    (weight : List ℚ) (adc_ticks : ℕ) (spp : SppResult)
    (modGpsweek : ℚ → ℚ) (ekf : EkfResult) (h : nsv ≠ 0) :
    (solve cfg st nsv weight adc_ticks spp modGpsweek ekf).updateDt =
      (ekfStep cfg spp ekf
        (oscBootstrap cfg modGpsweek (sppUpdate cfg st adc_ticks spp))).2 := by
  unfold solve
  simp [h]

theorem sppUpdate_state_spp (cfg : Config) (st : PosState) (adc_ticks : ℕ)
    (spp : SppResult) :
    (sppUpdate cfg st adc_ticks spp).state_spp =
      (spp.status && decide (spp.llh.alt > -100) && decide (spp.llh.alt < 9000),
        st.state_spp.1) := by
  unfold sppUpdate
  dsimp only
  split <;> rfl

theorem sppUpdate_ticks_spp (cfg : Config) (st : PosState) (adc_ticks : ℕ)
    (spp : SppResult) :
    (sppUpdate cfg st adc_ticks spp).ticks_spp =
      (adc_ticks % 2 ^ 64, st.ticks_spp.1) := by
  unfold sppUpdate
  dsimp only
  split <;> rfl

theorem sppUpdate_ticks_ekf (cfg : Config) (st : PosState) (adc_ticks : ℕ)
    (spp : SppResult) :
    (sppUpdate cfg st adc_ticks spp).ticks_ekf =
      (adc_ticks % 2 ^ 64, st.ticks_ekf.2) := by
  unfold sppUpdate
  dsimp only
  split <;> rfl

theorem sppUpdate_ct_rx (cfg : Config) (st : PosState) (adc_ticks : ℕ)
    (spp : SppResult) :
    (sppUpdate cfg st adc_ticks spp).ct_rx = (spp.ct_rx, st.ct_rx.1) := by
  unfold sppUpdate
  dsimp only
  split <;> rfl

theorem sppUpdate_ekf_running (cfg : Config) (st : PosState) (adc_ticks : ℕ)
    (spp : SppResult) :
    (sppUpdate cfg st adc_ticks spp).ekf_running = st.ekf_running := by
  unfold sppUpdate
  dsimp only
  split <;> rfl

theorem sppUpdate_pos_valid (cfg : Config) (st : PosState) (adc_ticks : ℕ)
    (spp : SppResult) :
    (sppUpdate cfg st adc_ticks spp).pos_valid =
      (st.pos_valid ||
        (spp.status && decide (spp.llh.alt > -100) && decide (spp.llh.alt < 9000))) := by
  unfold sppUpdate
  by_cases hc :
      (spp.status && decide (spp.llh.alt > -100) && decide (spp.llh.alt < 9000)) = true
  · simp [hc]
  · simp [hc]

theorem oscBootstrap_state_spp (cfg : Config) (modGpsweek : ℚ → ℚ)
    (s : PosState) : (oscBootstrap cfg modGpsweek s).state_spp = s.state_spp := by
  unfold oscBootstrap
  dsimp only
  split <;> (try split) <;> rfl

theorem oscBootstrap_ticks_spp (cfg : Config) (modGpsweek : ℚ → ℚ)
    (s : PosState) : (oscBootstrap cfg modGpsweek s).ticks_spp = s.ticks_spp := by
  unfold oscBootstrap
  dsimp only
  split <;> (try split) <;> rfl

theorem oscBootstrap_ct_rx (cfg : Config) (modGpsweek : ℚ → ℚ)
    (s : PosState) : (oscBootstrap cfg modGpsweek s).ct_rx = s.ct_rx := by
  unfold oscBootstrap
  dsimp only
  split <;> (try split) <;> rfl

theorem oscBootstrap_pos_valid (cfg : Config) (modGpsweek : ℚ → ℚ)
    (s : PosState) : (oscBootstrap cfg modGpsweek s).pos_valid = s.pos_valid := by
  unfold oscBootstrap
  dsimp only
  split <;> (try split) <;> rfl

theorem oscBootstrap_ekf_running (cfg : Config) (modGpsweek : ℚ → ℚ)
    (s : PosState) :
    (oscBootstrap cfg modGpsweek s).ekf_running =
      if (s.state_spp.1 && s.state_spp.2) = true ∧ s.ekf_running = -1 then 0
      else s.ekf_running := by
  unfold oscBootstrap
  by_cases hc : (s.state_spp.1 && s.state_spp.2) = true
  · by_cases hr : s.ekf_running = -1
    · simp [hc, hr]
    · simp [hc, hr]
  · simp [hc]

theorem oscBootstrap_ticks_ekf (cfg : Config) (modGpsweek : ℚ → ℚ)
    (s : PosState) :
    (oscBootstrap cfg modGpsweek s).ticks_ekf =
      if (s.state_spp.1 && s.state_spp.2) = true ∧ s.ekf_running = -1 then
        (s.ticks_ekf.1, s.ticks_ekf.1)
      else s.ticks_ekf := by
  unfold oscBootstrap
  by_cases hc : (s.state_spp.1 && s.state_spp.2) = true
  · by_cases hr : s.ekf_running = -1
    · simp [hc, hr]
    · simp [hc, hr]
  · simp [hc]

theorem ekfStep_not_running (cfg : Config) (spp : SppResult)
    (ekf : EkfResult) (s : PosState) (h : s.ekf_running < 0) :
    ekfStep cfg spp ekf s = (s, none) := by
  unfold ekfStep
  rw [if_neg (by omega)]

theorem ekfStep_ok (cfg : Config) (spp : SppResult) (ekf : EkfResult)
    (s : PosState) (h : 0 ≤ s.ekf_running) (hok : ekf.ok = true) :
    ekfStep cfg spp ekf s =
      ({ s with
           ticks_ekf := (s.ticks_ekf.1, s.ticks_ekf.1)
         , ekf_running := s.ekf_running + (if s.ekf_running < 4 then 1 else 0)
         , llh := ekf.llh
         , t_rx := ekf.ct_rx / cfg.cEkf
         , osc_corr := ekf.state4 / cfg.cEkf
         , pos := spp.pos }, some (dadc_ticks_sec cfg.fOsc s.ticks_ekf)) := by
  unfold ekfStep
  rw [if_pos (by omega), if_pos hok]

theorem ekfStep_fail (cfg : Config) (spp : SppResult) (ekf : EkfResult)
    (s : PosState) (h : 0 ≤ s.ekf_running) (hok : ekf.ok = false) :
    ekfStep cfg spp ekf s =
      ({ s with ekf_running := -1 },
        some (dadc_ticks_sec cfg.fOsc s.ticks_ekf)) := by
  unfold ekfStep
  rw [if_pos (by omega), if_neg (by simp [hok])]

theorem ekfStep_state_spp (cfg : Config) (spp : SppResult) (ekf : EkfResult)
    (s : PosState) : (ekfStep cfg spp ekf s).1.state_spp = s.state_spp := by
  unfold ekfStep
  dsimp only
  split <;> (try split) <;> rfl

theorem ekfStep_ticks_spp (cfg : Config) (spp : SppResult) (ekf : EkfResult)
    (s : PosState) : (ekfStep cfg spp ekf s).1.ticks_spp = s.ticks_spp := by
  unfold ekfStep
  dsimp only
  split <;> (try split) <;> rfl

theorem ekfStep_ct_rx (cfg : Config) (spp : SppResult) (ekf : EkfResult)
    (s : PosState) : (ekfStep cfg spp ekf s).1.ct_rx = s.ct_rx := by
  unfold ekfStep
  dsimp only
  split <;> (try split) <;> rfl

theorem ekfStep_pos_valid (cfg : Config) (spp : SppResult) (ekf : EkfResult)
    (s : PosState) : (ekfStep cfg spp ekf s).1.pos_valid = s.pos_valid := by
  unfold ekfStep
  dsimp only
  split <;> (try split) <;> rfl

theorem ekfStep_ticks_ekf_fst (cfg : Config) (spp : SppResult)
    (ekf : EkfResult) (s : PosState) :
    (ekfStep cfg spp ekf s).1.ticks_ekf.1 = s.ticks_ekf.1 := by
  unfold ekfStep
  dsimp only
  split <;> (try split) <;> rfl

theorem ekfStep_ticks_ekf_snd (cfg : Config) (spp : SppResult)
    (ekf : EkfResult) (s : PosState) :
    (ekfStep cfg spp ekf s).1.ticks_ekf.2 = s.ticks_ekf.2 ∨
      (ekfStep cfg spp ekf s).1.ticks_ekf.2 = s.ticks_ekf.1 := by
  unfold ekfStep
  dsimp only
  split <;> (try split) <;> (first | (left; rfl) | (right; rfl))

theorem oscBootstrap_ticks_ekf_fst (cfg : Config) (modGpsweek : ℚ → ℚ)
    (s : PosState) :
    (oscBootstrap cfg modGpsweek s).ticks_ekf.1 = s.ticks_ekf.1 := by
  rw [oscBootstrap_ticks_ekf]
  split <;> rfl

/-- C6: for every epoch processed by `solve()`, `spp_valid()` afterwards
returns true if and only if the point solver's solve returned success and
the resulting altitude lies strictly between -100 m and 9000 m. -/
theorem spp_valid_iff_altitude_gate (cfg : Config) (st : PosState)
    (nsv : ℕ) (weight : List ℚ) (adc_ticks : ℕ) (spp : SppResult)
    (modGpsweek : ℚ → ℚ) (ekf : EkfResult) (h : nsv ≠ 0) :
    spp_valid (solve cfg st nsv weight adc_ticks spp modGpsweek ekf).st = true ↔
      spp.status = true ∧ -100 < spp.llh.alt ∧ spp.llh.alt < 9000 := by
  rw [solve_st_of_ne _ _ _ _ _ _ _ _ h]
  unfold spp_valid
  rw [ekfStep_state_spp, oscBootstrap_state_spp, sppUpdate_state_spp]
  simp [and_assoc]

/-- C6 witness: a successful point-solve at altitude 100 m is reported
valid. -/
theorem spp_valid_iff_altitude_gate_witness :
    spp_valid (solve exCfg initState 4 [1, 1, 1, 1] 5 sppOk idQ ekfOk).st = true :=
  (spp_valid_iff_altitude_gate exCfg initState 4 [1, 1, 1, 1] 5 sppOk idQ
    ekfOk (by decide)).mpr ⟨rfl, by norm_num [sppOk], by norm_num [sppOk]⟩

/-- C5: `pos_valid()` is monotone non-decreasing across any sequence of
`solve()` calls: it starts false, is set true on any epoch whose
point-solution passes the plausibility gate, and once true is never
cleared. -/
theorem pos_valid_sticky (cfg : Config) (st : PosState) (nsv : ℕ)
    (weight : List ℚ) (adc_ticks : ℕ) (spp : SppResult)
    (modGpsweek : ℚ → ℚ) (ekf : EkfResult) :
    pos_valid initState = false ∧
    (pos_valid st = true →
      pos_valid (solve cfg st nsv weight adc_ticks spp modGpsweek ekf).st = true) ∧
    (nsv ≠ 0 → spp.status = true → -100 < spp.llh.alt → spp.llh.alt < 9000 →
      pos_valid (solve cfg st nsv weight adc_ticks spp modGpsweek ekf).st = true) := by
  refine ⟨rfl, ?_, ?_⟩
  · intro hv
    by_cases h : nsv = 0
    · unfold solve
      simpa [h] using hv
    · rw [solve_st_of_ne _ _ _ _ _ _ _ _ h]
      unfold pos_valid at hv ⊢
      rw [ekfStep_pos_valid, oscBootstrap_pos_valid, sppUpdate_pos_valid]
      simp [hv]
  · intro h hs ha hb
    rw [solve_st_of_ne _ _ _ _ _ _ _ _ h]
    unfold pos_valid
    rw [ekfStep_pos_valid, oscBootstrap_pos_valid, sppUpdate_pos_valid]
    simp [hs, ha, hb]

/-- C5 witness: a gate-passing epoch sets `pos_valid`, and it survives a
subsequent epoch. -/
theorem pos_valid_sticky_witness :
    pos_valid (solve exCfg ex1.st 4 [1, 1, 1, 1] 9 sppBad idQ ekfOk).st = true :=
  (pos_valid_sticky exCfg ex1.st 4 [1, 1, 1, 1] 9 sppBad idQ ekfOk).2.1
    (by decide)

/-- C2 counterexample: after a first epoch stores tick 5 in the filter
history's current slot, a second (invalid) epoch with tick 9 leaves the
filter history's previous slot at 0 instead of shifting the old current
slot value 5 into it. -/
theorem filter_tick_history_no_shift_cex :
    qx1.st.ticks_ekf.1 = 5 ∧ qx2.st.ticks_ekf.2 = 0 ∧
      qx2.st.ticks_ekf.2 ≠ qx1.st.ticks_ekf.1 := by
  decide

/-- C2 (amended): for every `solve()` call on a non-empty batch, the
point-solver tick history and the clock-bias history shift (previous
slot receives the old current slot, current slot receives the new
value), and the filter tick history's current slot receives the new tick
value; but the filter tick history's previous slot does not shift every
epoch: it receives the new (current) tick exactly when the filter
bootstraps this epoch (filter not running, previous point-solution
valid, current point-solution gate-passing) or the filter update
invoked this epoch succeeds, and keeps its old value otherwise. -/
theorem histories_shift (cfg : Config) (st : PosState) (nsv : ℕ)
    (weight : List ℚ) (adc_ticks : ℕ) (spp : SppResult)
    (modGpsweek : ℚ → ℚ) (ekf : EkfResult) (h : nsv ≠ 0) :
    (solve cfg st nsv weight adc_ticks spp modGpsweek ekf).st.ticks_spp =
        (adc_ticks % 2 ^ 64, st.ticks_spp.1) ∧
    (solve cfg st nsv weight adc_ticks spp modGpsweek ekf).st.ct_rx =
        (spp.ct_rx, st.ct_rx.1) ∧
    (solve cfg st nsv weight adc_ticks spp modGpsweek ekf).st.ticks_ekf.1 =
        adc_ticks % 2 ^ 64 ∧
    (solve cfg st nsv weight adc_ticks spp modGpsweek ekf).st.ticks_ekf.2 =
      (if (st.ekf_running = -1 ∧ st.state_spp.1 = true ∧ spp.status = true ∧
            -100 < spp.llh.alt ∧ spp.llh.alt < 9000) ∨
          ((solve cfg st nsv weight adc_ticks spp modGpsweek ekf).updateDt.isSome = true ∧
            ekf.ok = true)
        then adc_ticks % 2 ^ 64
        else st.ticks_ekf.2) := by
  rw [solve_st_of_ne _ _ _ _ _ _ _ _ h,
    solve_updateDt_of_ne _ _ _ _ _ _ _ _ h]
  refine ⟨?_, ?_, ?_, ?_⟩
  · rw [ekfStep_ticks_spp, oscBootstrap_ticks_spp, sppUpdate_ticks_spp]
  · rw [ekfStep_ct_rx, oscBootstrap_ct_rx, sppUpdate_ct_rx]
  · rw [ekfStep_ticks_ekf_fst, oscBootstrap_ticks_ekf_fst, sppUpdate_ticks_ekf]
  · have hboot_iff : (((sppUpdate cfg st adc_ticks spp).state_spp.1 &&
        (sppUpdate cfg st adc_ticks spp).state_spp.2) = true ∧
        (sppUpdate cfg st adc_ticks spp).ekf_running = -1) ↔
        (st.ekf_running = -1 ∧ st.state_spp.1 = true ∧ spp.status = true ∧
          -100 < spp.llh.alt ∧ spp.llh.alt < 9000) := by
      rw [sppUpdate_state_spp, sppUpdate_ekf_running]
      simp only [Bool.and_eq_true, decide_eq_true_eq, gt_iff_lt]
      tauto
    by_cases hb : ((sppUpdate cfg st adc_ticks spp).state_spp.1 &&
        (sppUpdate cfg st adc_ticks spp).state_spp.2) = true ∧
        (sppUpdate cfg st adc_ticks spp).ekf_running = -1
    · have h2t : (oscBootstrap cfg modGpsweek (sppUpdate cfg st adc_ticks spp)).ticks_ekf =
          (adc_ticks % 2 ^ 64, adc_ticks % 2 ^ 64) := by
        rw [oscBootstrap_ticks_ekf, if_pos hb, sppUpdate_ticks_ekf]
      have h2r : (oscBootstrap cfg modGpsweek (sppUpdate cfg st adc_ticks spp)).ekf_running = 0 := by
        rw [oscBootstrap_ekf_running, if_pos hb]
      by_cases hok : ekf.ok = true
      · rw [ekfStep_ok cfg spp ekf _ (by omega) hok]
        dsimp only
        rw [h2t, if_pos (Or.inl (hboot_iff.mp hb))]
      · have hok' : ekf.ok = false := by
          revert hok
          cases ekf.ok <;> simp
        rw [ekfStep_fail cfg spp ekf _ (by omega) hok']
        dsimp only
        rw [h2t, if_pos (Or.inl (hboot_iff.mp hb))]
    · have h2t : (oscBootstrap cfg modGpsweek (sppUpdate cfg st adc_ticks spp)).ticks_ekf =
          (adc_ticks % 2 ^ 64, st.ticks_ekf.2) := by
        rw [oscBootstrap_ticks_ekf, if_neg hb, sppUpdate_ticks_ekf]
      have h2r : (oscBootstrap cfg modGpsweek (sppUpdate cfg st adc_ticks spp)).ekf_running =
          st.ekf_running := by
        rw [oscBootstrap_ekf_running, if_neg hb, sppUpdate_ekf_running]
      by_cases hrun : 0 ≤ st.ekf_running
      · by_cases hok : ekf.ok = true
        · rw [ekfStep_ok cfg spp ekf _ (by omega) hok]
          dsimp only
          rw [h2t, if_pos (Or.inr ⟨rfl, hok⟩)]
        · have hok' : ekf.ok = false := by
            revert hok
            cases ekf.ok <;> simp
          rw [ekfStep_fail cfg spp ekf _ (by omega) hok']
          dsimp only
          rw [h2t, if_neg ?hc]
          case hc =>
            rintro (hc | hc)
            · omega
            · exact hok (hc.2)
      · rw [ekfStep_not_running cfg spp ekf _ (by omega)]
        dsimp only
        rw [h2t, if_neg ?hn]
        case hn =>
          rintro (hc | hc)
          · exact hb (hboot_iff.mpr hc)
          · simp at hc

/-- C2 (amended) witness. -/
theorem histories_shift_witness :
    (solve exCfg ex1.st 4 [1, 1, 1, 1] 9 sppOk idQ ekfOk).st.ticks_spp =
      (9 % 2 ^ 64, ex1.st.ticks_spp.1) :=
  (histories_shift exCfg ex1.st 4 [1, 1, 1, 1] 9 sppOk idQ ekfOk
    (by decide)).1

/-- C9: `solve(observations, weights, tick)` returns false only when the
observation batch is empty (zero satellites); for every non-empty batch
satisfying the preconditions it returns true, regardless of whether the
internal fix was numerically valid. -/
theorem solve_ret_true_iff_nonempty (cfg : Config) (st : PosState)
    (nsv : ℕ) (weight : List ℚ) (adc_ticks : ℕ) (spp : SppResult)
    (modGpsweek : ℚ → ℚ) (ekf : EkfResult)
    (_hpre : weight.length = nsv) :
    ((solve cfg st nsv weight adc_ticks spp modGpsweek ekf).ret = false
        ↔ nsv = 0)
      ∧ (nsv ≠ 0 →
          (solve cfg st nsv weight adc_ticks spp modGpsweek ekf).ret = true) := by
  unfold solve
  by_cases h : nsv = 0
  · simp [h]
  · simp [h]

/-- C3: on every successful filter update within `solve()`, the exported
geodetic coordinates, receiver time, and oscillator correction are
overwritten from the filter's state, while the exported Cartesian
position is copied from the point solver's position, not the
filter's. -/
theorem ekf_success_export_asymmetry (cfg : Config) (st : PosState)
    (nsv : ℕ) (weight : List ℚ) (adc_ticks : ℕ) (spp : SppResult)
    (modGpsweek : ℚ → ℚ) (ekf : EkfResult) (h : nsv ≠ 0)
    (hok : ekf.ok = true)
    (hinv : (solve cfg st nsv weight adc_ticks spp modGpsweek ekf).updateDt.isSome = true) :
    (solve cfg st nsv weight adc_ticks spp modGpsweek ekf).st.llh = ekf.llh ∧
    (solve cfg st nsv weight adc_ticks spp modGpsweek ekf).st.t_rx =
      ekf.ct_rx / cfg.cEkf ∧
    (solve cfg st nsv weight adc_ticks spp modGpsweek ekf).st.osc_corr =
      ekf.state4 / cfg.cEkf ∧
    (solve cfg st nsv weight adc_ticks spp modGpsweek ekf).st.pos = spp.pos := by
  rw [solve_st_of_ne _ _ _ _ _ _ _ _ h]
  rw [solve_updateDt_of_ne _ _ _ _ _ _ _ _ h] at hinv
  by_cases hr : 0 ≤ (oscBootstrap cfg modGpsweek (sppUpdate cfg st adc_ticks spp)).ekf_running
  · rw [ekfStep_ok cfg spp ekf _ hr hok]
    exact ⟨rfl, rfl, rfl, rfl⟩
  · rw [ekfStep_not_running cfg spp ekf _ (by omega)] at hinv
    simp at hinv

/-- C3 witness: the third epoch of a fresh valid run has a successful
update; its exported fields come from the filter except the Cartesian
position. -/
theorem ekf_success_export_asymmetry_witness :
    (solve exCfg ex2.st 4 [1, 1, 1, 1] 13 sppOk idQ ekfOk).st.llh = ekfOk.llh ∧
    (solve exCfg ex2.st 4 [1, 1, 1, 1] 13 sppOk idQ ekfOk).st.pos = sppOk.pos :=
  ⟨(ekf_success_export_asymmetry exCfg ex2.st 4 [1, 1, 1, 1] 13 sppOk idQ
      ekfOk (by decide) rfl (by decide)).1,
    (ekf_success_export_asymmetry exCfg ex2.st 4 [1, 1, 1, 1] 13 sppOk idQ
      ekfOk (by decide) rfl (by decide)).2.2.2⟩

/-- C4: the filter confidence counter always lies in {-1,0,1,2,3,4}: it
starts at -1, is set to 0 at bootstrap, increments by one per successful
filter update capped at 4 (a bootstrap epoch whose bundled update
succeeds lands at 1), and is exactly -1 immediately after any failed
update. -/
theorem ekf_running_domain (cfg : Config) (st : PosState) (nsv : ℕ)
    (weight : List ℚ) (adc_ticks : ℕ) (spp : SppResult)
    (modGpsweek : ℚ → ℚ) (ekf : EkfResult)
    (hlo : -1 ≤ st.ekf_running) (hhi : st.ekf_running ≤ 4) :
    initState.ekf_running = -1 ∧
    (-1 ≤ (solve cfg st nsv weight adc_ticks spp modGpsweek ekf).st.ekf_running ∧
      (solve cfg st nsv weight adc_ticks spp modGpsweek ekf).st.ekf_running ≤ 4) ∧
    ((solve cfg st nsv weight adc_ticks spp modGpsweek ekf).updateDt.isSome = true →
      ekf.ok = false →
      (solve cfg st nsv weight adc_ticks spp modGpsweek ekf).st.ekf_running = -1) ∧
    ((solve cfg st nsv weight adc_ticks spp modGpsweek ekf).updateDt.isSome = true →
      ekf.ok = true →
      (0 ≤ st.ekf_running →
        (solve cfg st nsv weight adc_ticks spp modGpsweek ekf).st.ekf_running =
          min (st.ekf_running + 1) 4) ∧
      (st.ekf_running = -1 →
        (solve cfg st nsv weight adc_ticks spp modGpsweek ekf).st.ekf_running = 1)) := by
  refine ⟨rfl, ?_⟩
  by_cases h : nsv = 0
  · unfold solve
    simp [h]
    omega
  · rw [solve_st_of_ne _ _ _ _ _ _ _ _ h,
      solve_updateDt_of_ne _ _ _ _ _ _ _ _ h]
    have h1r : (sppUpdate cfg st adc_ticks spp).ekf_running = st.ekf_running :=
      sppUpdate_ekf_running cfg st adc_ticks spp
    have h2r := oscBootstrap_ekf_running cfg modGpsweek (sppUpdate cfg st adc_ticks spp)
    rw [h1r] at h2r
    by_cases hrun : 0 ≤ (oscBootstrap cfg modGpsweek (sppUpdate cfg st adc_ticks spp)).ekf_running
    · by_cases hok : ekf.ok = true
      · rw [ekfStep_ok cfg spp ekf _ hrun hok]
        dsimp only
        refine ⟨?_, ?_, ?_⟩
        · split at h2r <;> (rw [h2r]; split <;> omega)
        · intro _ hfalse
          rw [hok] at hfalse
          exact absurd hfalse (by simp)
        · intro _ _
          constructor
          · intro hge
            have hne : ¬ st.ekf_running = -1 := by omega
            rw [if_neg (fun hc => hne hc.2)] at h2r
            rw [h2r]
            split <;> omega
          · intro hm1
            split at h2r
            · rw [h2r]
              norm_num
            · rw [h2r] at hrun
              omega
      · have hok' : ekf.ok = false := by
          revert hok
          cases ekf.ok <;> simp
        rw [ekfStep_fail cfg spp ekf _ hrun hok']
        dsimp only
        refine ⟨by omega, fun _ _ => rfl, ?_⟩
        intro _ hc
        rw [hc] at hok'
        exact absurd hok' (by simp)
    · rw [ekfStep_not_running cfg spp ekf _ (by omega)]
      dsimp only
      refine ⟨?_, by simp, by simp⟩
      split at h2r <;> omega

/-- C4 witness: a fresh bootstrap epoch with a successful bundled update
lands at confidence 1, inside the {-1,...,4} domain. -/
theorem ekf_running_domain_witness :
    -1 ≤ (solve exCfg ex1.st 4 [1, 1, 1, 1] 9 sppOk idQ ekfOk).st.ekf_running ∧
      (solve exCfg ex1.st 4 [1, 1, 1, 1] 9 sppOk idQ ekfOk).st.ekf_running ≤ 4 :=
  (ekf_running_domain exCfg ex1.st 4 [1, 1, 1, 1] 9 sppOk idQ ekfOk
    (by decide) (by decide)).2.1

/-- C9 witness. -/
theorem solve_ret_true_iff_nonempty_witness :
    (solve exCfg initState 4 [1, 1, 1, 1] 5 sppOk idQ ekfOk).ret = true :=
  (solve_ret_true_iff_nonempty exCfg initState 4 [1, 1, 1, 1] 5 sppOk idQ
    ekfOk (by decide)).2 (by decide)

/-- C7: for every pair of 48-bit tick values with exactly one wraparound
(newest < previous), `elapsed_seconds` equals
(newest + 2^48 − previous) / nominal frequency, and this value is
positive. -/
theorem dadc_ticks_sec_wraparound (fOsc : ℚ) (t0 t1 : ℕ)
    (h0 : t0 < 2 ^ 48) (h1 : t1 < 2 ^ 48) (hw : t0 < t1) (hf : 0 < fOsc) :
    dadc_ticks_sec fOsc (t0, t1) = ((t0 : ℚ) + 2 ^ 48 - t1) / fOsc ∧
    0 < dadc_ticks_sec fOsc (t0, t1) := by
  have key : ((t0 + (if t0 < t1 then 1 else 0) * 2 ^ 48) % 2 ^ 64
      + 2 ^ 64 - t1) % 2 ^ 64 = t0 + 2 ^ 48 - t1 := by
    rw [if_pos hw]
    omega
  have hcast : ((t0 + 2 ^ 48 - t1 : ℕ) : ℚ) = (t0 : ℚ) + 2 ^ 48 - t1 := by
    rw [Nat.cast_sub (by omega)]
    push_cast
    ring
  unfold dadc_ticks_sec
  dsimp only
  rw [key, hcast]
  refine ⟨rfl, div_pos ?_ hf⟩
  have hn : (t1 : ℚ) < (t0 : ℚ) + 2 ^ 48 := by
    have : (t1 : ℚ) < 2 ^ 48 := by exact_mod_cast h1
    have h0q : 0 ≤ (t0 : ℚ) := Nat.cast_nonneg t0
    linarith
  linarith

/-- C7 witness. -/
theorem dadc_ticks_sec_wraparound_witness :
    dadc_ticks_sec 10 (5, 7) = ((5 : ℚ) + 2 ^ 48 - 7) / 10 ∧
      0 < dadc_ticks_sec 10 (5, 7) :=
  dadc_ticks_sec_wraparound 10 5 7 (by norm_num) (by norm_num) (by norm_num)
    (by norm_num)

theorem dadc_ticks_sec_self (fOsc : ℚ) (t : ℕ) :
    dadc_ticks_sec fOsc (t, t) = 0 := by
  unfold dadc_ticks_sec
  dsimp only
  rw [if_neg (lt_irrefl t)]
  have key : ((t + 0 * 2 ^ 48) % 2 ^ 64 + 2 ^ 64 - t) % 2 ^ 64 = 0 := by
    omega
  rw [key]
  simp

/-- A bootstrap epoch: from a state with the filter not running and a
valid previous point-solution, a gate-passing epoch bootstraps the
filter and immediately invokes its update with the elapsed time computed
from the two equal slots of the freshly-equalised filter tick history;
the confidence lands at 1 on success and -1 on failure. -/
theorem solve_bootstrap_run (cfg : Config) (st : PosState) (nsv : ℕ)
    (weight : List ℚ) (adc_ticks : ℕ) (spp : SppResult)
    (modGpsweek : ℚ → ℚ) (ekf : EkfResult) (h : nsv ≠ 0)
    (hrun : st.ekf_running = -1) (hprev : st.state_spp.1 = true)
    (hs : spp.status = true) (ha : -100 < spp.llh.alt)
    (hb : spp.llh.alt < 9000) :
    (solve cfg st nsv weight adc_ticks spp modGpsweek ekf).st.ekf_running =
        (if ekf.ok = true then 1 else -1) ∧
    (solve cfg st nsv weight adc_ticks spp modGpsweek ekf).updateDt =
        some (dadc_ticks_sec cfg.fOsc
          (adc_ticks % 2 ^ 64, adc_ticks % 2 ^ 64)) := by
  rw [solve_st_of_ne _ _ _ _ _ _ _ _ h,
    solve_updateDt_of_ne _ _ _ _ _ _ _ _ h]
  have h1s : (sppUpdate cfg st adc_ticks spp).state_spp = (true, true) := by
    rw [sppUpdate_state_spp]
    simp [hs, hprev, ha, hb]
  have h1r : (sppUpdate cfg st adc_ticks spp).ekf_running = -1 := by
    rw [sppUpdate_ekf_running, hrun]
  have hcond : ((sppUpdate cfg st adc_ticks spp).state_spp.1 &&
      (sppUpdate cfg st adc_ticks spp).state_spp.2) = true ∧
      (sppUpdate cfg st adc_ticks spp).ekf_running = -1 := by
    rw [h1s]
    exact ⟨rfl, h1r⟩
  have h2r : (oscBootstrap cfg modGpsweek (sppUpdate cfg st adc_ticks spp)).ekf_running = 0 := by
    rw [oscBootstrap_ekf_running, if_pos hcond]
  have h2t : (oscBootstrap cfg modGpsweek (sppUpdate cfg st adc_ticks spp)).ticks_ekf =
      (adc_ticks % 2 ^ 64, adc_ticks % 2 ^ 64) := by
    rw [oscBootstrap_ticks_ekf, if_pos hcond, sppUpdate_ticks_ekf]
  by_cases hok : ekf.ok = true
  · rw [ekfStep_ok cfg spp ekf _ (by omega) hok]
    dsimp only
    rw [h2r, h2t, if_pos hok]
    norm_num
  · have hok' : ekf.ok = false := by
      revert hok
      cases ekf.ok <;> simp
    rw [ekfStep_fail cfg spp ekf _ (by omega) hok']
    dsimp only
    rw [h2t, if_neg hok]
    exact ⟨rfl, rfl⟩

/-- C10: whenever a call to `solve()` bootstraps the filter, the filter
update invoked later in that same call receives an elapsed time of
exactly 0 seconds, because the bootstrap sets the filter tick history's
previous slot equal to its current slot, which already holds the current
epoch's tick value. -/
theorem bootstrap_update_dt_zero (cfg : Config) (st : PosState) (nsv : ℕ)
    (weight : List ℚ) (adc_ticks : ℕ) (spp : SppResult)
    (modGpsweek : ℚ → ℚ) (ekf : EkfResult) (h : nsv ≠ 0)
    (hrun : st.ekf_running = -1) (hprev : st.state_spp.1 = true)
    (hs : spp.status = true) (ha : -100 < spp.llh.alt)
    (hb : spp.llh.alt < 9000) :
    (solve cfg st nsv weight adc_ticks spp modGpsweek ekf).updateDt =
      some 0 := by
  rw [(solve_bootstrap_run cfg st nsv weight adc_ticks spp modGpsweek ekf h
    hrun hprev hs ha hb).2, dadc_ticks_sec_self]

/-- C10 witness. -/
theorem bootstrap_update_dt_zero_witness :
    (solve exCfg ex1.st 4 [1, 1, 1, 1] 9 sppOk idQ ekfOk).updateDt = some 0 :=
  bootstrap_update_dt_zero exCfg ex1.st 4 [1, 1, 1, 1] 9 sppOk idQ ekfOk
    (by decide) (by decide) (by decide) rfl (by decide) (by decide)

/-- C1 counterexample: a fresh run of two consecutive gate-passing
epochs with a successful bundled filter update ends the second call with
confidence 1 and `ekf_valid()` true — not confidence 0 with
`ekf_valid()` false as claimed. -/
theorem second_epoch_confidence_cex :
    spp_valid ex1.st = true ∧ spp_valid ex2.st = true ∧
      ¬ (ex2.st.ekf_running = 0 ∧ ekf_valid ex2.st = false) := by
  decide

/-- C1 (amended): on a fresh instance, after the second of two
consecutive `solve()` epochs whose point-solutions both pass the
altitude plausibility gate, the filter has been bootstrapped **and its
update already invoked within that same second call**: the confidence
counter is 1 and `ekf_valid()` is true if that update succeeded, and the
confidence counter is -1 and `ekf_valid()` is false if it failed; it is
never 0. -/
theorem second_valid_epoch_state (cfg : Config) (n1 n2 : ℕ)
    (w1 w2 : List ℚ) (adc1 adc2 : ℕ) (spp1 spp2 : SppResult)
    (mg1 mg2 : ℚ → ℚ) (ekf1 ekf2 : EkfResult)
    (h1 : n1 ≠ 0) (h2 : n2 ≠ 0)
    (hs1 : spp1.status = true) (ha1 : -100 < spp1.llh.alt)
    (hb1 : spp1.llh.alt < 9000)
    (hs2 : spp2.status = true) (ha2 : -100 < spp2.llh.alt)
    (hb2 : spp2.llh.alt < 9000) :
    (solve cfg (solve cfg initState n1 w1 adc1 spp1 mg1 ekf1).st n2 w2
        adc2 spp2 mg2 ekf2).st.ekf_running =
      (if ekf2.ok = true then 1 else -1) ∧
    ekf_valid (solve cfg (solve cfg initState n1 w1 adc1 spp1 mg1 ekf1).st
        n2 w2 adc2 spp2 mg2 ekf2).st = ekf2.ok := by
  have e1r : (solve cfg initState n1 w1 adc1 spp1 mg1 ekf1).st.ekf_running = -1 := by
    rw [solve_st_of_ne _ _ _ _ _ _ _ _ h1]
    have hosc : (oscBootstrap cfg mg1 (sppUpdate cfg initState adc1 spp1)).ekf_running = -1 := by
      have hneg : ¬ (((sppUpdate cfg initState adc1 spp1).state_spp.1 &&
          (sppUpdate cfg initState adc1 spp1).state_spp.2) = true ∧
          (sppUpdate cfg initState adc1 spp1).ekf_running = -1) := by
        intro hc
        have hc1 := hc.1
        rw [sppUpdate_state_spp] at hc1
        simp [initState] at hc1
      rw [oscBootstrap_ekf_running, if_neg hneg, sppUpdate_ekf_running]
      rfl
    rw [ekfStep_not_running cfg spp1 ekf1 _ (by omega)]
    exact hosc
  have e1s : (solve cfg initState n1 w1 adc1 spp1 mg1 ekf1).st.state_spp.1 = true := by
    rw [solve_st_of_ne _ _ _ _ _ _ _ _ h1]
    rw [ekfStep_state_spp, oscBootstrap_state_spp, sppUpdate_state_spp]
    simp [hs1, ha1, hb1]
  have hmain := solve_bootstrap_run cfg
    (solve cfg initState n1 w1 adc1 spp1 mg1 ekf1).st n2 w2 adc2 spp2 mg2
    ekf2 h2 e1r e1s hs2 ha2 hb2
  refine ⟨hmain.1, ?_⟩
  unfold ekf_valid
  rw [hmain.1]
  cases hok : ekf2.ok <;> simp

/-- C1 (amended) witness. -/
theorem second_valid_epoch_state_witness :
    (solve exCfg (solve exCfg initState 4 [1, 1, 1, 1] 5 sppOk idQ ekfOk).st
        4 [1, 1, 1, 1] 9 sppOk idQ ekfOk).st.ekf_running =
      (if ekfOk.ok = true then 1 else -1) :=
  (second_valid_epoch_state exCfg 4 4 [1, 1, 1, 1] [1, 1, 1, 1] 5 9 sppOk
    sppOk idQ idQ ekfOk ekfOk (by decide) (by decide) rfl (by decide)
    (by decide) rfl (by decide) (by decide)).1

/-- C8: `elev_azim` returns an empty sequence whenever both `spp_valid()`
and `ekf_valid()` are false; otherwise it returns a sequence whose
length equals the number of input satellite columns, in input order,
computed from the filter when `ekf_valid()` is true and from the point
solver otherwise, with radian results converted to degrees. -/
theorem elev_azim_spec (st : PosState) (n : ℕ) (sppEA ekfEA : ℕ → ℚ × ℚ) :
    (spp_valid st = false → ekf_valid st = false →
      elev_azim st n sppEA ekfEA = []) ∧
    (spp_valid st = true ∨ ekf_valid st = true →
      (elev_azim st n sppEA ekfEA).length = n ∧
      ∀ i, i < n →
        (elev_azim st n sppEA ekfEA)[i]? =
          some ((if ekf_valid st = true then ekfEA i else sppEA i).1 / M_PI * 180,
                (if ekf_valid st = true then ekfEA i else sppEA i).2 / M_PI * 180)) := by
  constructor
  · intro hsf hef
    unfold elev_azim
    rw [if_pos ⟨by simp [hsf], by simp [hef]⟩]
  · intro hv
    have hcond : ¬ (¬ spp_valid st = true ∧ ¬ ekf_valid st = true) := by
      rcases hv with hv | hv <;> simp [hv]
    unfold elev_azim
    rw [if_neg hcond]
    dsimp only
    refine ⟨by simp, ?_⟩
    intro i hi
    rw [List.getElem?_map, List.getElem?_range hi]
    by_cases he : ekf_valid st = true <;> simp [he]

/-- C8 witness: on a fresh state neither validity flag is set and the
sequence is empty. -/
theorem elev_azim_spec_witness :
    elev_azim initState 3 (fun _ => (0, 0)) (fun _ => (0, 0)) = [] :=
  (elev_azim_spec initState 3 (fun _ => (0, 0)) (fun _ => (0, 0))).1
    (by decide) (by decide)

end PosSolver
